import Mathlib

/-!
Verification development for the pleading-markdown converter's core pipeline:
file validation, per-format text extraction, the LLM-backed cleaning pass and
the provider-dispatching conversion client.  TypeScript sources
`src/utils/fileProcessing.ts` and `src/utils/llmProviders.ts` are shallowly
embedded: JavaScript strings become `String`, numbers used as byte counts or
token counts become `Nat`/`Int` (with the one float computation in
`formatFileSize` modelled by exact integer arithmetic), async functions that
may throw become `Except String`-valued functions, and the external `fetch`
effect becomes an explicit oracle parameter together with the list of requests
actually issued.
-/

set_option maxRecDepth 16384

namespace Pleading

/-- JavaScript `a || b` on an optional string: `b` is used when `a` is
`undefined` or the empty string (both falsy). -/
def jsOr (a : Option String) (b : String) : String :=
  match a with
  | some s => if s = "" then b else s
  | none => b

/-- Provider descriptor, from the `LLMProvider` interface in `types.ts`. -/
structure LLMProvider where
  id : String
  name : String
  baseUrl : String
  requiresApiKey : Bool
  models : List String
  deriving DecidableEq, Repr

/-- Conversion settings, from the `ConversionSettings` interface in
`types.ts`.  `temperature` is a JavaScript number never inspected by the
core; it is modelled as a rational and carried through verbatim. -/
structure ConversionSettings where
  provider : String
  model : String
  apiKey : String
  temperature : Rat
  maxTokens : Nat
  useExamples : Bool
  selectedExamples : List String
  customPrompt : String
  customBaseUrl : Option String
  customModel : Option String
  deriving DecidableEq, Repr

/-- Few-shot example, from the `ConversionExample` interface in `types.ts`. -/
structure ConversionExample where
  id : String
  name : String
  originalText : String
  convertedMarkdown : String
  pleadingType : String
  deriving DecidableEq, Repr

/-- The static provider registry `LLM_PROVIDERS` of `llmProviders.ts`. -/
def LLM_PROVIDERS : List LLMProvider :=
  [ { id := "local",
      name := "Local/Custom API",
      baseUrl := "http://localhost:11434/v1",
      requiresApiKey := false,
      models := ["custom"] },
    { id := "openai",
      name := "OpenAI",
      baseUrl := "https://api.openai.com/v1",
      requiresApiKey := true,
      models := ["gpt-4o", "gpt-4o-mini", "gpt-4-turbo", "gpt-3.5-turbo"] },
    { id := "anthropic",
      name := "Anthropic Claude",
      baseUrl := "https://api.anthropic.com/v1",
      requiresApiKey := true,
      models := ["claude-3-5-sonnet-20241022", "claude-3-haiku-20240307",
                 "claude-3-opus-20240229"] },
    { id := "groq",
      name := "Groq",
      baseUrl := "https://api.groq.com/openai/v1",
      requiresApiKey := true,
      models := ["llama3-8b-8192", "llama3-70b-8192", "mixtral-8x7b-32768",
                 "gemma-7b-it"] } ]

/-- Decidable equality for `Except` results, needed to evaluate the embedded
operations on concrete inputs. -/
instance {ε α : Type} [DecidableEq ε] [DecidableEq α] : DecidableEq (Except ε α) :=
  fun x y =>
    match x, y with
    | .ok a, .ok b =>
      if h : a = b then isTrue (by rw [h]) else isFalse (by simp [h])
    | .error a, .error b =>
      if h : a = b then isTrue (by rw [h]) else isFalse (by simp [h])
    | .ok _, .error _ => isFalse (by simp)
    | .error _, .ok _ => isFalse (by simp)

/-- An uploaded file as the core sees it: declared name, MIME type and byte
size, plus the outcomes of the three external read/parse operations the
format extractors would perform on its bytes (modelled as data, since the
browser I/O is outside the embedded core):
`txtRead` is the `FileReader.readAsText` outcome (`none` is a reader error),
`docxParse` is the mammoth raw-text outcome, and `pdfLoad` is the pdf.js
outcome, a list of pages each holding the `str` values of its text items
(`Except.error` is a document-level load exception message). -/
structure File where
  name : String
  type : String
  size : Nat
  txtRead : Option String
  docxParse : Except String String
  pdfLoad : Except String (List (List String))
  deriving DecidableEq, Repr

/-- Extraction options, from the `ExtractTextOptions` interface of
`fileProcessing.ts` (all fields optional there). -/
structure ExtractTextOptions where
  maxFileSize : Option Nat
  supportedTypes : Option (List String)
  supportedExtensions : Option (List String)
  deriving DecidableEq, Repr

/-- The `DEFAULT_OPTIONS` constant of `fileProcessing.ts`. -/
def DEFAULT_OPTIONS : ExtractTextOptions :=
  { maxFileSize := some (10 * 1024 * 1024),
    supportedTypes := some
      [ "text/plain",
        "application/vnd.openxmlformats-officedocument.wordprocessingml.document",
        "application/pdf" ],
    supportedExtensions := some [".txt", ".docx", ".pdf"] }

/-- JavaScript `String.prototype.toLowerCase`, character by character (the
names and types the pipeline compares are ASCII). -/
def jsToLower (s : String) : String :=
  String.mk (s.data.map Char.toLower)

/-- JavaScript `String.prototype.endsWith`, as a suffix test on the
character lists. -/
def jsEndsWith (s suffix : String) : Bool :=
  suffix.data.isSuffixOf s.data

/-- JavaScript `String.prototype.trim`: whitespace stripped from both ends,
computed on the character list. -/
def jsTrim (s : String) : String :=
  String.mk
    (((s.data.dropWhile Char.isWhitespace).reverse.dropWhile
        Char.isWhitespace).reverse)

/-- JavaScript `String.prototype.split` with a one-character separator,
on the character list of the string: every occurrence separates, empty
pieces are kept, and the empty string splits to `[[]]`. -/
def jsSplit (sep : Char) : List Char → List (List Char)
  | [] => [[]]
  | c :: cs =>
    match jsSplit sep cs with
    | [] => [[c]]
    | r :: rs => if c = sep then [] :: r :: rs else (c :: r) :: rs

/-- The extension computed by `validateFile`:
`'.' + file.name.split('.').pop()?.toLowerCase()` — a dot prepended to the
lower-cased last dot-separated component of the name (for a dot-free name
this is the whole name). -/
def fileExtension (name : String) : String :=
  "." ++ jsToLower (String.mk ((jsSplit '.' name.data).getLastD []))

/-- Unit names `sizes[i]` of `formatFileSize`; JavaScript yields the string
"undefined" when the index runs past the array. -/
def sizeName : Nat → String
  | 0 => "Bytes"
  | 1 => "KB"
  | 2 => "MB"
  | 3 => "GB"
  | _ => "undefined"

/-- Fuelled helper for `unitIndex`; the fuel only bounds the recursion and
any fuel at least the number of divisions gives the same answer. -/
def unitIndexAux : Nat → Nat → Nat
  | 0, _ => 0
  | fuel + 1, b => if b < 1024 then 0 else unitIndexAux fuel (b / 1024) + 1

/-- The unit index `Math.floor(Math.log(bytes) / Math.log(1024))` of
`formatFileSize`, for a positive byte count: the number of times 1024
divides into `b`, i.e. the base-1024 logarithm, computed exactly. -/
def unitIndex (b : Nat) : Nat := unitIndexAux b b

/-- The value `(bytes / Math.pow(k, i)).toFixed(2)` as an exact count of
hundredths, rounding half away from zero as `toFixed` does. -/
def roundHundredths (num den : Nat) : Nat := (num * 200 + den) / (2 * den)

/-- Rendering of `parseFloat(x.toFixed(2))`: the hundredths count printed
with trailing fractional zeros removed, as `parseFloat` does when the
number is converted back to a string. -/
def dropZeros (hundredths : Nat) : String :=
  let ip := hundredths / 100
  let fr := hundredths % 100
  if fr = 0 then toString ip
  else if fr % 10 = 0 then toString ip ++ "." ++ toString (fr / 10)
  else if fr < 10 then toString ip ++ ".0" ++ toString fr
  else toString ip ++ "." ++ toString fr

/-- The `FileProcessor.formatFileSize` function of `fileProcessing.ts`,
with its floating-point logarithm and division modelled by the exact
integer computations they perform on these magnitudes. -/
def formatFileSize (bytes : Int) : String :=
  if bytes = 0 then "0 Bytes"
  else if bytes < 0 then "Invalid size"
  else
    dropZeros (roundHundredths bytes.toNat (1024 ^ unitIndex bytes.toNat))
      ++ " " ++ sizeName (unitIndex bytes.toNat)

/-- The size guard of `validateFile`: `maxFileSize && file.size > maxFileSize`
(an absent or zero ceiling is falsy and disables the check). -/
def sizeExceeded (file : File) (options : ExtractTextOptions) : Bool :=
  match options.maxFileSize with
  | some m => m != 0 && file.size > m
  | none => false

/-- The type guard of `validateFile`: the declared MIME type is in the
supported-type list, or the computed extension is in the supported-extension
list (an absent list contributes false). -/
def typeAllowed (file : File) (options : ExtractTextOptions) : Bool :=
  (match options.supportedTypes with
   | some ts => ts.contains file.type
   | none => false) ||
  (match options.supportedExtensions with
   | some es => es.contains (fileExtension file.name)
   | none => false)

/-- The `FileProcessor.validateFile` gatekeeper: size ceiling first, then
type/extension, throwing the corresponding message. -/
def validateFile (file : File) (options : ExtractTextOptions) : Except String Unit :=
  if sizeExceeded file options then
    Except.error ("File size must be less than "
      ++ formatFileSize (Int.ofNat (options.maxFileSize.getD 0)))
  else if !(typeAllowed file options) then
    Except.error "Please upload a TXT, DOCX, or PDF file"
  else Except.ok ()

/-- One chat message of an outbound request body. -/
structure ChatMessage where
  role : String
  content : String
  deriving DecidableEq, Repr

/-- The JSON body every provider branch sends: model name, messages,
temperature and `max_tokens`. -/
structure RequestBody where
  model : String
  messages : List ChatMessage
  temperature : Rat
  maxTokens : Nat
  deriving DecidableEq, Repr

/-- An outbound `fetch` request as the client builds it: URL, method,
headers and JSON body. -/
structure HttpRequest where
  url : String
  method : String
  headers : List (String × String)
  body : RequestBody
  deriving DecidableEq, Repr

/-- The parts of a provider HTTP response that the client reads: the `ok`
flag, status and status text, the error body fields (`error.message` when
the body parses to JSON with one, the raw text for the local branch), and
the success body fields (`choices[0].message.content`, `content[0].text`,
and the optional usage counters). -/
structure HttpResponse where
  ok : Bool
  status : Nat
  statusText : String
  errorMessage : Option String
  bodyText : String
  choicesContent : String
  anthropicContent : String
  usageTotalTokens : Option Nat
  usageInputTokens : Option Nat
  usageOutputTokens : Option Nat
  deriving DecidableEq, Repr

/-- Outcome of a `fetch` call: a settled HTTP response, or a rejected
promise carrying a message (network failure and the like). -/
inductive FetchOutcome where
  | response (r : HttpResponse)
  | networkError (msg : String)
  deriving DecidableEq, Repr

/-- The external network, modelled as an oracle from requests to outcomes. -/
def Net : Type := HttpRequest → FetchOutcome

/-- The normalized success payload each provider call resolves with. -/
structure CallResult where
  content : String
  tokensUsed : Nat
  deriving DecidableEq, Repr

/-- The `LLMService.callOpenAI` branch: bearer-token POST to
`<baseUrl>/chat/completions`; non-ok responses surface `error.message` (or
the generic text), ok responses yield `choices[0].message.content` and
`usage.total_tokens` defaulting to 0.  Returns the thrown-or-resolved
outcome together with the requests issued. -/
def callOpenAI (net : Net) (prompt : String) (settings : ConversionSettings)
    (provider : LLMProvider) : Except String CallResult × List HttpRequest :=
  if settings.apiKey = "" then
    (Except.error "OpenAI API key is required", [])
  else
    let req : HttpRequest :=
      { url := provider.baseUrl ++ "/chat/completions",
        method := "POST",
        headers := [("Content-Type", "application/json"),
                    ("Authorization", "Bearer " ++ settings.apiKey)],
        body := { model := settings.model,
                  messages := [{ role := "user", content := prompt }],
                  temperature := settings.temperature,
                  maxTokens := settings.maxTokens } }
    match net req with
    | FetchOutcome.networkError msg => (Except.error msg, [req])
    | FetchOutcome.response r =>
      if !r.ok then
        (Except.error (jsOr r.errorMessage "OpenAI API request failed"), [req])
      else
        (Except.ok { content := r.choicesContent,
                     tokensUsed := r.usageTotalTokens.getD 0 }, [req])

/-- The `LLMService.callGroq` branch, identical in shape to the OpenAI one
apart from its message texts. -/
def callGroq (net : Net) (prompt : String) (settings : ConversionSettings)
    (provider : LLMProvider) : Except String CallResult × List HttpRequest :=
  if settings.apiKey = "" then
    (Except.error "Groq API key is required", [])
  else
    let req : HttpRequest :=
      { url := provider.baseUrl ++ "/chat/completions",
        method := "POST",
        headers := [("Content-Type", "application/json"),
                    ("Authorization", "Bearer " ++ settings.apiKey)],
        body := { model := settings.model,
                  messages := [{ role := "user", content := prompt }],
                  temperature := settings.temperature,
                  maxTokens := settings.maxTokens } }
    match net req with
    | FetchOutcome.networkError msg => (Except.error msg, [req])
    | FetchOutcome.response r =>
      if !r.ok then
        (Except.error (jsOr r.errorMessage "Groq API request failed"), [req])
      else
        (Except.ok { content := r.choicesContent,
                     tokensUsed := r.usageTotalTokens.getD 0 }, [req])

/-- The `LLMService.callAnthropic` branch: `x-api-key` POST to
`<baseUrl>/messages`; ok responses yield `content[0].text` and the sum of
the usage counters, each defaulting to 0. -/
def callAnthropic (net : Net) (prompt : String) (settings : ConversionSettings)
    (provider : LLMProvider) : Except String CallResult × List HttpRequest :=
  if settings.apiKey = "" then
    (Except.error "Anthropic API key is required", [])
  else
    let req : HttpRequest :=
      { url := provider.baseUrl ++ "/messages",
        method := "POST",
        headers := [("Content-Type", "application/json"),
                    ("x-api-key", settings.apiKey),
                    ("anthropic-version", "2023-06-01")],
        body := { model := settings.model,
                  messages := [{ role := "user", content := prompt }],
                  temperature := settings.temperature,
                  maxTokens := settings.maxTokens } }
    match net req with
    | FetchOutcome.networkError msg => (Except.error msg, [req])
    | FetchOutcome.response r =>
      if !r.ok then
        (Except.error (jsOr r.errorMessage "Anthropic API request failed"), [req])
      else
        (Except.ok { content := r.anthropicContent,
                     tokensUsed := r.usageInputTokens.getD 0
                       + r.usageOutputTokens.getD 0 }, [req])

/-- The `LLMService.callCustomAPI` branch: POST to
`<customBaseUrl or provider.baseUrl>/chat/completions` with no
authorization header and `customModel or "custom"` as the model; fails
up-front with the base-URL message when neither URL is non-empty. -/
def callCustomAPI (net : Net) (prompt : String) (settings : ConversionSettings)
    (provider : LLMProvider) : Except String CallResult × List HttpRequest :=
  let baseUrl := jsOr settings.customBaseUrl provider.baseUrl
  let model := jsOr settings.customModel "custom"
  if baseUrl = "" then
    (Except.error "Custom base URL is required for local LLM", [])
  else
    let req : HttpRequest :=
      { url := baseUrl ++ "/chat/completions",
        method := "POST",
        headers := [("Content-Type", "application/json")],
        body := { model := model,
                  messages := [{ role := "user", content := prompt }],
                  temperature := settings.temperature,
                  maxTokens := settings.maxTokens } }
    match net req with
    | FetchOutcome.networkError msg => (Except.error msg, [req])
    | FetchOutcome.response r =>
      if !r.ok then
        (Except.error ("Local API request failed: " ++ toString r.status ++ " "
          ++ r.statusText ++ ". " ++ r.bodyText), [req])
      else
        (Except.ok { content := r.choicesContent,
                     tokensUsed := r.usageTotalTokens.getD 0 }, [req])

/-- The provider dispatch chain shared verbatim by `convertToMarkdown` and
`processText`: explicit branches for "openai", "anthropic" and "groq",
everything else routed to the custom-API branch. -/
def dispatchProvider (net : Net) (prompt : String) (settings : ConversionSettings)
    (provider : LLMProvider) : Except String CallResult × List HttpRequest :=
  if settings.provider = "openai" then callOpenAI net prompt settings provider
  else if settings.provider = "anthropic" then callAnthropic net prompt settings provider
  else if settings.provider = "groq" then callGroq net prompt settings provider
  else callCustomAPI net prompt settings provider

/-- The fixed default instruction template of `LLMService.buildPrompt`. -/
def DEFAULT_TEMPLATE : String :=
  "You are an expert legal document processor specializing in Singapore civil litigation. Convert the following legal pleading to clean, well-structured markdown format.\n"
  ++ "\n"
  ++ "CRITICAL REQUIREMENTS:\n"
  ++ "1. Preserve the document's legal structure and hierarchy\n"
  ++ "2. Convert numbered paragraphs to proper markdown format\n"
  ++ "3. Format case citations appropriately with proper emphasis\n"
  ++ "4. Maintain legal formatting conventions (e.g., party names, case references)\n"
  ++ "5. Ensure headers and sections are properly structured using markdown headers (# ## ###)\n"
  ++ "6. Convert tables and lists to markdown format\n"
  ++ "7. Preserve important legal numbering and cross-references\n"
  ++ "8. Focus on the substantive legal content only\n"
  ++ "\n"
  ++ "FORMATTING GUIDELINES:\n"
  ++ "- Use # for main document title\n"
  ++ "- Use ## for major sections (e.g., \"STATEMENT OF CLAIM\", \"PRAYER FOR RELIEF\")\n"
  ++ "- Use ### for subsections\n"
  ++ "- Use numbered lists for legal paragraphs (1. 2. 3.)\n"
  ++ "- Use **bold** for party names, case names, and important legal terms\n"
  ++ "- Use *italics* for case citations and legal references\n"
  ++ "- Use > for quoted text or legal provisions\n"
  ++ "- Preserve the logical flow and legal reasoning structure\n"
  ++ "\n"

/-- One enumerated few-shot example of the default prompt:
`Example <1-based index> (<pleadingType>):` with original and converted
text in full. -/
def exampleBlock (idx : Nat) (ex : ConversionExample) : String :=
  "Example " ++ toString (idx + 1) ++ " (" ++ ex.pleadingType ++ "):\n"
  ++ "Original:\n" ++ ex.originalText ++ "\n\n"
  ++ "Converted:\n" ++ ex.convertedMarkdown ++ "\n\n"

/-- The examples section appended when at least one example is supplied. -/
def examplesSection (examples : List ConversionExample) : String :=
  "\nHere are examples of good conversions:\n\n"
  ++ String.join (examples.mapIdx (fun i ex => exampleBlock i ex))

/-- The `LLMService.buildPrompt` function: a non-empty (after trimming)
custom instruction replaces the default template wholesale; otherwise the
default template is used, with the examples section when examples exist,
and both branches close with the document text and the fixed closing
instruction. -/
def buildPrompt (text : String) (examples : List ConversionExample)
    (customPrompt : String) : String :=
  if jsTrim customPrompt ≠ "" then
    jsTrim customPrompt ++ "\n\nNow convert this legal pleading:\n\n" ++ text
      ++ "\n\nProvide only the clean markdown conversion:"
  else
    let base := DEFAULT_TEMPLATE
    let base := if examples.length > 0 then base ++ examplesSection examples else base
    base ++ "\nNow convert this legal pleading:\n\n" ++ text
      ++ "\n\nProvide only the clean markdown conversion:"

/-- The result shape `convertToMarkdown` resolves with. -/
structure MarkdownResult where
  success : Bool
  markdown : Option String
  error : Option String
  tokensUsed : Option Nat
  processingTime : Int
  deriving DecidableEq, Repr

/-- The result shape `processText` resolves with. -/
structure ProcessResult where
  success : Bool
  content : Option String
  error : Option String
  tokensUsed : Option Nat
  processingTime : Int
  deriving DecidableEq, Repr

/-- The `LLMService.convertToMarkdown` orchestrator: blank input
short-circuits with a zero-time failure before any network traffic;
otherwise the prompt is built, the provider resolved (unknown identifiers
fail), the call dispatched, and every thrown error is caught into a
structured failure result.  `elapsed` stands for the wall-clock difference
`Date.now() - startTime` of the non-short-circuit paths. -/
def convertToMarkdown (net : Net) (elapsed : Int) (text : String)
    (settings : ConversionSettings) (examples : List ConversionExample) :
    MarkdownResult × List HttpRequest :=
  if text = "" ∨ (jsTrim text).length = 0 then
    ({ success := false, markdown := none,
       error := some "No text content provided for conversion",
       tokensUsed := none, processingTime := 0 }, [])
  else
    let prompt := buildPrompt text examples settings.customPrompt
    match LLM_PROVIDERS.find? (fun p => p.id == settings.provider) with
    | none =>
      ({ success := false, markdown := none,
         error := some ("Invalid LLM provider: " ++ settings.provider),
         tokensUsed := none, processingTime := elapsed }, [])
    | some provider =>
      match dispatchProvider net prompt settings provider with
      | (Except.ok r, reqs) =>
        ({ success := true, markdown := some r.content, error := none,
           tokensUsed := some r.tokensUsed, processingTime := elapsed }, reqs)
      | (Except.error msg, reqs) =>
        ({ success := false, markdown := none, error := some msg,
           tokensUsed := none, processingTime := elapsed }, reqs)

/-- The `LLMService.processText` orchestrator, the single-prompt variant of
`convertToMarkdown` used by the PDF cleaning pass: same short-circuit,
provider resolution, dispatch and error capture, resolving with `content`
instead of `markdown`. -/
def processText (net : Net) (elapsed : Int) (prompt : String)
    (settings : ConversionSettings) : ProcessResult × List HttpRequest :=
  if prompt = "" ∨ (jsTrim prompt).length = 0 then
    ({ success := false, content := none,
       error := some "No prompt provided for text processing",
       tokensUsed := none, processingTime := 0 }, [])
  else
    match LLM_PROVIDERS.find? (fun p => p.id == settings.provider) with
    | none =>
      ({ success := false, content := none,
         error := some ("Invalid LLM provider: " ++ settings.provider),
         tokensUsed := none, processingTime := elapsed }, [])
    | some provider =>
      match dispatchProvider net prompt settings provider with
      | (Except.ok r, reqs) =>
        ({ success := true, content := some r.content, error := none,
           tokensUsed := some r.tokensUsed, processingTime := elapsed }, reqs)
      | (Except.error msg, reqs) =>
        ({ success := false, content := none, error := some msg,
           tokensUsed := none, processingTime := elapsed }, reqs)

/-- The `extractTextFromTxt` extractor: the reader's text on success, the
fixed read-error message when the reader errors. -/
def extractTextFromTxt (file : File) : Except String String :=
  match file.txtRead with
  | some t => Except.ok t
  | none => Except.error "Failed to read text file"

/-- The `extractTextFromDocx` extractor; the mammoth parse outcome is
external and carried in the file model (its failure messages are the fixed
reader/parse messages of the source). -/
def extractTextFromDocx (file : File) : Except String String :=
  file.docxParse

/-- Text of one PDF page as `extractTextFromPdf` assembles it: keep the
items whose `str` is a non-empty string, trim each, drop the ones that
became empty, join with single spaces. -/
def pdfPageText (page : List String) : String :=
  String.intercalate " "
    (((page.filter (fun s => s != "")).map jsTrim).filter
      (fun s => s.length != 0))

/-- The `extractTextFromPdf` extractor: concatenate the non-empty page
texts separated by blank lines, trim the whole, and fail with the
no-readable-text message when nothing remains; every failure is wrapped in
the PDF-specific message of the source's catch block. -/
def extractTextFromPdf (file : File) : Except String String :=
  match file.pdfLoad with
  | Except.error msg =>
    Except.error ("Failed to extract text from PDF: " ++ msg
      ++ ". Please ensure the PDF contains selectable text.")
  | Except.ok pages =>
    let fullText := pages.foldl
      (fun acc page =>
        let pageText := pdfPageText page
        if pageText ≠ "" then acc ++ pageText ++ "\n\n" else acc) ""
    let trimmedText := jsTrim fullText
    if trimmedText = "" then
      Except.error ("Failed to extract text from PDF: "
        ++ "No readable text found in PDF. The PDF may not contain selectable text or may be image-based. Please ensure the PDF is OCRed and contains selectable text."
        ++ ". Please ensure the PDF contains selectable text.")
    else Except.ok trimmedText

/-- The fixed cleaning instruction of `cleanTextWithLLM` with the raw text
interpolated at the end. -/
def cleaningPrompt (rawText : String) : String :=
  "You are a document processing expert. Clean the following extracted PDF text by:\n"
  ++ "\n"
  ++ "1. Remove headers, footers, page numbers, and watermarks\n"
  ++ "2. Remove repetitive formatting artifacts and OCR noise\n"
  ++ "3. Fix broken words and sentences caused by PDF extraction\n"
  ++ "4. Maintain the logical structure and flow of the legal document\n"
  ++ "5. Preserve important legal content, case citations, and references\n"
  ++ "6. Remove unnecessary whitespace and formatting characters\n"
  ++ "7. Ensure paragraphs flow naturally\n"
  ++ "8. Keep numbered sections and legal formatting intact\n"
  ++ "9. Remove any gibberish or corrupted text fragments\n"
  ++ "10. Ensure the text is coherent and readable\n"
  ++ "\n"
  ++ "IMPORTANT: Only return the cleaned text content. Do not add any explanations, comments, or markdown formatting.\n"
  ++ "\n"
  ++ "Raw extracted text:\n"
  ++ rawText
  ++ "\n\nCleaned text:"

/-- The `cleanTextWithLLM` step: guard against blank raw text, run the
cleaning prompt through `processText`, keep the trimmed content when the
call succeeded with non-blank content, and otherwise fall back to the raw
text unchanged (reported failures, absent content, blank content and
thrown errors all take the fallback; `processText` itself never throws). -/
def cleanTextWithLLM (net : Net) (elapsed : Int) (rawText : String)
    (settings : ConversionSettings) : Except String String :=
  if rawText = "" ∨ (jsTrim rawText).length = 0 then
    Except.error "No text content to clean"
  else
    let res := (processText net elapsed (cleaningPrompt rawText) settings).1
    match res.content with
    | some c =>
      if res.success && jsTrim c != "" then Except.ok (jsTrim c)
      else Except.ok rawText
    | none => Except.ok rawText

/-- The `FileProcessor.extractText` orchestrator: validate (errors surface
unwrapped), dispatch on MIME type first and lower-cased name suffix second
in the order text, word-processor, PDF; the PDF branch demands settings and
routes through extraction plus cleaning; anything else is the defensive
unsupported-type error; every error of the dispatch body is wrapped with
the `Failed to extract text: ` prefix. -/
def extractText (net : Net) (elapsed : Int) (file : File)
    (settings : Option ConversionSettings) : Except String String :=
  match validateFile file DEFAULT_OPTIONS with
  | Except.error e => Except.error e
  | Except.ok _ =>
    let fileType := file.type
    let fileName := jsToLower file.name
    let inner : Except String String :=
      if fileType = "text/plain" ∨ jsEndsWith fileName ".txt" then
        extractTextFromTxt file
      else if fileType = "application/vnd.openxmlformats-officedocument.wordprocessingml.document"
          ∨ jsEndsWith fileName ".docx" then
        extractTextFromDocx file
      else if fileType = "application/pdf" ∨ jsEndsWith fileName ".pdf" then
        match settings with
        | none => Except.error "PDF processing requires LLM settings for text cleaning"
        | some s =>
          match extractTextFromPdf file with
          | Except.error e => Except.error e
          | Except.ok rawText => cleanTextWithLLM net elapsed rawText s
      else
        Except.error ("Unsupported file type: " ++ fileType)
    match inner with
    | Except.ok t => Except.ok t
    | Except.error m => Except.error ("Failed to extract text: " ++ m)

/-! Supporting lemmas. -/

/-- Any fuel gives unit index 0 below 1024. -/
theorem unitIndexAux_of_lt (f b : Nat) (h : b < 1024) : unitIndexAux f b = 0 := by
  cases f <;> simp [unitIndexAux, h]

/-- Between 1024 and 1024 squared the unit index is 1 (the KB bucket). -/
theorem unitIndex_eq_one (b : Nat) (h1 : 1024 ≤ b) (h2 : b < 1048576) :
    unitIndex b = 1 := by
  obtain ⟨f, rfl⟩ : ∃ f, b = f + 1 := ⟨b - 1, by omega⟩
  show unitIndexAux (f + 1) (f + 1) = 1
  rw [unitIndexAux, if_neg (by omega),
    unitIndexAux_of_lt f ((f + 1) / 1024) (by omega)]

/-! Claim theorems. -/

/-- C8: `formatFileSize` maps 0 to "0 Bytes", every negative input to
"Invalid size", every byte count in [1024, 1048575] to a string ending in
"KB", 1536 to exactly "1.5 KB", 1024 to "1 KB" and 1048576 to "1 MB",
choosing the unit by the (exactly modelled) repeated division by 1024. -/
theorem claim_C8_formatFileSize :
    formatFileSize 0 = "0 Bytes"
    ∧ (∀ b : Int, b < 0 → formatFileSize b = "Invalid size")
    ∧ (∀ b : Int, 1024 ≤ b → b ≤ 1048575 → ∃ p, formatFileSize b = p ++ "KB")
    ∧ formatFileSize 1536 = "1.5 KB"
    ∧ formatFileSize 1024 = "1 KB"
    ∧ formatFileSize 1048576 = "1 MB" := by
  refine ⟨by decide, ?_, ?_, by decide, by decide, by decide⟩
  · intro b hb
    rw [formatFileSize, if_neg (by omega), if_pos hb]
  · intro b h1 h2
    have hu : unitIndex b.toNat = 1 := unitIndex_eq_one b.toNat (by omega) (by omega)
    refine ⟨dropZeros (roundHundredths b.toNat (1024 ^ 1)) ++ " ", ?_⟩
    rw [formatFileSize, if_neg (by omega), if_neg (by omega), hu]
    rfl

/-- C8 witness: the quantified conjuncts of the claim theorem instantiated
at concrete inputs. -/
theorem claim_C8_formatFileSize_witness :
    formatFileSize (-7) = "Invalid size"
    ∧ (∃ p, formatFileSize 2048 = p ++ "KB") :=
  ⟨claim_C8_formatFileSize.2.1 (-7) (by decide),
   claim_C8_formatFileSize.2.2.1 2048 (by decide) (by decide)⟩

/-- The size guard of the default options holds exactly above the 10 MiB
ceiling. -/
theorem sizeExceeded_default (file : File) :
    sizeExceeded file DEFAULT_OPTIONS = true ↔ 10485760 < file.size := by
  simp [sizeExceeded, DEFAULT_OPTIONS]

/-- The type guard of the default options holds exactly when the MIME type
or the computed extension is in the supported set. -/
theorem typeAllowed_default (file : File) :
    typeAllowed file DEFAULT_OPTIONS = true ↔
      (file.type ∈
          [ "text/plain",
            "application/vnd.openxmlformats-officedocument.wordprocessingml.document",
            "application/pdf" ]
       ∨ fileExtension file.name ∈ [".txt", ".docx", ".pdf"]) := by
  simp [typeAllowed, DEFAULT_OPTIONS]

/-- C3 counterexample: the claim fails on oversize files, because the size
ceiling is checked first.  A 10,485,761-byte file whose MIME type is in the
supported set is not accepted (refuting the stated iff), and a
10,485,761-byte file failing both type checks is rejected with the size
message, not with "Please upload a TXT, DOCX, or PDF file". -/
theorem claim_C3_counterexample :
    ("application/pdf" ∈
        [ "text/plain",
          "application/vnd.openxmlformats-officedocument.wordprocessingml.document",
          "application/pdf" ])
    ∧ validateFile
        { name := "a.pdf", type := "application/pdf", size := 10485761,
          txtRead := none, docxParse := Except.error "e", pdfLoad := Except.error "e" }
        DEFAULT_OPTIONS = Except.error "File size must be less than 10 MB"
    ∧ validateFile
        { name := "a", type := "b", size := 10485761,
          txtRead := none, docxParse := Except.error "e", pdfLoad := Except.error "e" }
        DEFAULT_OPTIONS = Except.error "File size must be less than 10 MB"
    ∧ ("File size must be less than 10 MB" ≠ "Please upload a TXT, DOCX, or PDF file") := by
  refine ⟨by decide, ?_, ?_, by decide⟩ <;> decide

/-- C3 (amended): for files within the 10,485,760-byte ceiling, validation
accepts exactly when the MIME type or the computed lower-cased extension is
supported, and a within-ceiling file failing both checks is rejected with
exactly "Please upload a TXT, DOCX, or PDF file"; a file exceeding the
ceiling is rejected — before the type check and before any format-specific
parsing (for every file content, settings and network) — with the message
"File size must be less than 10 MB". -/
theorem claim_C3_amended (file : File) :
    (file.size ≤ 10485760 →
      ((validateFile file DEFAULT_OPTIONS = Except.ok ()) ↔
        (file.type ∈
            [ "text/plain",
              "application/vnd.openxmlformats-officedocument.wordprocessingml.document",
              "application/pdf" ]
         ∨ fileExtension file.name ∈ [".txt", ".docx", ".pdf"])))
    ∧ (file.size ≤ 10485760 →
        ¬(file.type ∈
            [ "text/plain",
              "application/vnd.openxmlformats-officedocument.wordprocessingml.document",
              "application/pdf" ]
          ∨ fileExtension file.name ∈ [".txt", ".docx", ".pdf"]) →
        validateFile file DEFAULT_OPTIONS
          = Except.error "Please upload a TXT, DOCX, or PDF file")
    ∧ (10485760 < file.size →
        validateFile file DEFAULT_OPTIONS
          = Except.error "File size must be less than 10 MB"
        ∧ ∀ (net : Net) (elapsed : Int) (settings : Option ConversionSettings),
            extractText net elapsed file settings
              = Except.error "File size must be less than 10 MB") := by
  have hsz : ∀ h : file.size ≤ 10485760, sizeExceeded file DEFAULT_OPTIONS = false := by
    intro h
    cases hb : sizeExceeded file DEFAULT_OPTIONS
    · rfl
    · exact absurd ((sizeExceeded_default file).mp hb) (by omega)
  refine ⟨?_, ?_, ?_⟩
  · intro h
    rw [validateFile, hsz h]
    simp only [if_false, Bool.false_eq_true]
    rw [← typeAllowed_default file]
    cases typeAllowed file DEFAULT_OPTIONS <;> simp
  · intro h ht
    rw [validateFile, hsz h]
    have : typeAllowed file DEFAULT_OPTIONS = false := by
      cases hb : typeAllowed file DEFAULT_OPTIONS
      · rfl
      · exact absurd ((typeAllowed_default file).mp hb) ht
    simp [this]
  · intro h
    have hb : sizeExceeded file DEFAULT_OPTIONS = true :=
      (sizeExceeded_default file).mpr h
    have hval : validateFile file DEFAULT_OPTIONS
        = Except.error "File size must be less than 10 MB" := by
      rw [validateFile, hb, if_pos rfl]
      decide
    exact ⟨hval, fun net elapsed settings => by simp [extractText, hval]⟩

/-- C3 witness: the amended claim instantiated at concrete files — a small
text file is accepted, a small unknown file draws the exact type message,
and an oversize file draws the size message from `extractText` itself. -/
theorem claim_C3_amended_witness :
    validateFile
      { name := "a.txt", type := "text/plain", size := 5,
        txtRead := some "hi", docxParse := Except.error "e", pdfLoad := Except.error "e" }
      DEFAULT_OPTIONS = Except.ok ()
    ∧ validateFile
        { name := "a.zip", type := "application/zip", size := 5,
          txtRead := none, docxParse := Except.error "e", pdfLoad := Except.error "e" }
        DEFAULT_OPTIONS = Except.error "Please upload a TXT, DOCX, or PDF file"
    ∧ extractText (fun _ => FetchOutcome.networkError "down") 0
        { name := "a.txt", type := "text/plain", size := 10485761,
          txtRead := some "hi", docxParse := Except.error "e", pdfLoad := Except.error "e" }
        none = Except.error "File size must be less than 10 MB" :=
  ⟨((claim_C3_amended _).1 (by decide)).mpr (by decide),
   (claim_C3_amended _).2.1 (by decide) (by decide),
   (((claim_C3_amended _).2.2 (by decide)).2 _ 0 none)⟩

/-- Below the ceiling the size guard is off. -/
theorem sizeExceeded_false_of_le (file : File) (h : file.size ≤ 10485760) :
    sizeExceeded file DEFAULT_OPTIONS = false := by
  cases hb : sizeExceeded file DEFAULT_OPTIONS
  · rfl
  · exact absurd ((sizeExceeded_default file).mp hb) (by omega)

/-- Validation passes when both guards are satisfied. -/
theorem validateFile_ok_of (file : File)
    (hs : sizeExceeded file DEFAULT_OPTIONS = false)
    (ht : typeAllowed file DEFAULT_OPTIONS = true) :
    validateFile file DEFAULT_OPTIONS = Except.ok () := by
  simp [validateFile, hs, ht]

/-- Splitting at a character that does not occur leaves the list whole. -/
theorem jsSplit_of_not_mem (sep : Char) (cs : List Char) (h : sep ∉ cs) :
    jsSplit sep cs = [cs] := by
  induction cs with
  | nil => rfl
  | cons c cs ih =>
    have hc : c ≠ sep := fun e => h (e ▸ List.mem_cons_self c cs)
    have hcs : sep ∉ cs := fun m => h (List.mem_cons_of_mem c m)
    rw [jsSplit, ih hcs]
    simp [hc]

/-- String concatenation is associative (on the underlying character
lists). -/
theorem string_append_assoc (a b c : String) : a ++ b ++ c = a ++ (b ++ c) := by
  cases a with
  | mk A =>
    cases b with
    | mk B =>
      cases c with
      | mk C =>
        show String.mk (A ++ B ++ C) = String.mk (A ++ (B ++ C))
        rw [List.append_assoc]

/-- A validated file matching none of the three format branches lands in
the defensive unsupported-type error of `extractText`, wrapped by the
orchestrator prefix. -/
theorem extractText_unsupported (net : Net) (elapsed : Int) (file : File)
    (settings : Option ConversionSettings)
    (hval : validateFile file DEFAULT_OPTIONS = Except.ok ())
    (ht1 : file.type ≠ "text/plain")
    (ht2 : file.type ≠ "application/vnd.openxmlformats-officedocument.wordprocessingml.document")
    (ht3 : file.type ≠ "application/pdf")
    (he1 : jsEndsWith (jsToLower file.name) ".txt" = false)
    (he2 : jsEndsWith (jsToLower file.name) ".docx" = false)
    (he3 : jsEndsWith (jsToLower file.name) ".pdf" = false) :
    extractText net elapsed file settings
      = Except.error ("Failed to extract text: Unsupported file type: " ++ file.type) := by
  have hlit : "Failed to extract text: " ++ "Unsupported file type: "
      = "Failed to extract text: Unsupported file type: " := by decide
  simp [extractText, hval, ht1, ht2, ht3, he1, he2, he3, ← string_append_assoc, hlit]

/-- C9: for every dot-free name the validator computes the extension as a
dot plus the entire lower-cased name, so the files named exactly "pdf",
"txt" or "docx" (within the size ceiling) pass validation whatever their
MIME type; with an unsupported MIME type the format dispatch of
`extractText`, which needs a genuine ".txt"/".docx"/".pdf" suffix, then
rejects them with the wrapped unsupported-type message. -/
theorem claim_C9_dotless_names :
    (∀ name : String, '.' ∉ name.data →
       fileExtension name = "." ++ jsToLower name)
    ∧ (∀ (file : File) (net : Net) (elapsed : Int)
         (settings : Option ConversionSettings),
       (file.name = "pdf" ∨ file.name = "txt" ∨ file.name = "docx") →
       file.size ≤ 10485760 →
       file.type ∉
         [ "text/plain",
           "application/vnd.openxmlformats-officedocument.wordprocessingml.document",
           "application/pdf" ] →
       validateFile file DEFAULT_OPTIONS = Except.ok ()
       ∧ extractText net elapsed file settings
           = Except.error ("Failed to extract text: Unsupported file type: "
               ++ file.type)) := by
  refine ⟨fun name h => ?_, fun file net elapsed settings hname hsize hty => ?_⟩
  · rw [fileExtension, jsSplit_of_not_mem '.' name.data h]
    rfl
  · have ht : file.type ≠ "text/plain"
        ∧ file.type ≠ "application/vnd.openxmlformats-officedocument.wordprocessingml.document"
        ∧ file.type ≠ "application/pdf" := by
      simpa using hty
    have hszf := sizeExceeded_false_of_le file hsize
    rcases hname with h | h | h
    all_goals
      have hta : typeAllowed file DEFAULT_OPTIONS = true :=
        (typeAllowed_default file).mpr (Or.inr (by rw [h]; decide))
    all_goals
      have hval := validateFile_ok_of file hszf hta
    all_goals
      exact ⟨hval,
        extractText_unsupported net elapsed file settings hval ht.1 ht.2.1 ht.2.2
          (by rw [h]; decide) (by rw [h]; decide) (by rw [h]; decide)⟩

/-- C9 witness: part one at the name "pdf", part two at a small file named
"pdf" with an unknown MIME type. -/
theorem claim_C9_dotless_names_witness :
    fileExtension "pdf" = "." ++ jsToLower "pdf"
    ∧ extractText (fun _ => FetchOutcome.networkError "down") 0
        { name := "pdf", type := "application/octet-stream", size := 3,
          txtRead := none, docxParse := Except.error "e", pdfLoad := Except.error "e" }
        none
      = Except.error ("Failed to extract text: Unsupported file type: "
          ++ "application/octet-stream") :=
  ⟨claim_C9_dotless_names.1 "pdf" (by decide),
   (claim_C9_dotless_names.2
      { name := "pdf", type := "application/octet-stream", size := 3,
        txtRead := none, docxParse := Except.error "e", pdfLoad := Except.error "e" }
      (fun _ => FetchOutcome.networkError "down") 0 none
      (Or.inl rfl) (by decide) (by decide)).2⟩

/-- C1 counterexample: the claim fails on the code in two ways.  A file
with MIME type "application/pdf" but name "a.txt" is a PDF file in the
claim sense and passes validation, yet `extractText` without settings
resolves with the text branch instead of rejecting (the dispatch tries the
text branch first); and even for a genuine "a.pdf" file the rejection
message carries the orchestrator prefix, so it is not the exact message the
claim states. -/
theorem claim_C1_counterexample :
    (validateFile
        { name := "a.txt", type := "application/pdf", size := 4,
          txtRead := some "hi", docxParse := Except.error "e",
          pdfLoad := Except.error "e" } DEFAULT_OPTIONS = Except.ok ()
     ∧ extractText (fun _ => FetchOutcome.networkError "down") 0
         { name := "a.txt", type := "application/pdf", size := 4,
           txtRead := some "hi", docxParse := Except.error "e",
           pdfLoad := Except.error "e" } none = Except.ok "hi")
    ∧ (extractText (fun _ => FetchOutcome.networkError "down") 0
         { name := "a.pdf", type := "application/pdf", size := 4,
           txtRead := none, docxParse := Except.error "e",
           pdfLoad := Except.ok [["x"]] } none
        = Except.error
            "Failed to extract text: PDF processing requires LLM settings for text cleaning"
       ∧ "Failed to extract text: PDF processing requires LLM settings for text cleaning"
           ≠ "PDF processing requires LLM settings for text cleaning") := by
  refine ⟨⟨?_, ?_⟩, ?_, ?_⟩ <;> decide

/-- C1 (amended): for every file that passes validation and actually
reaches the PDF dispatch branch — its MIME type is "application/pdf" or its
lower-cased name ends in ".pdf", and it is captured by neither the text nor
the word-processor branch tried before it — `extractText` without a
settings value rejects, regardless of the file content, with the wrapped
message "Failed to extract text: PDF processing requires LLM settings for
text cleaning". -/
theorem claim_C1_amended (net : Net) (elapsed : Int) (file : File)
    (hval : validateFile file DEFAULT_OPTIONS = Except.ok ())
    (ht1 : file.type ≠ "text/plain")
    (he1 : jsEndsWith (jsToLower file.name) ".txt" = false)
    (ht2 : file.type ≠ "application/vnd.openxmlformats-officedocument.wordprocessingml.document")
    (he2 : jsEndsWith (jsToLower file.name) ".docx" = false)
    (h3 : file.type = "application/pdf"
          ∨ jsEndsWith (jsToLower file.name) ".pdf" = true) :
    extractText net elapsed file none
      = Except.error
          "Failed to extract text: PDF processing requires LLM settings for text cleaning" := by
  have hlit : "Failed to extract text: "
        ++ "PDF processing requires LLM settings for text cleaning"
      = "Failed to extract text: PDF processing requires LLM settings for text cleaning" := by
    decide
  rcases h3 with h | h <;>
    simp [extractText, hval, ht1, ht2, he1, he2, h, hlit]

/-- C1 witness: the amended claim at a concrete empty-ish PDF file. -/
theorem claim_C1_amended_witness :
    extractText (fun _ => FetchOutcome.networkError "down") 0
      { name := "b.pdf", type := "application/pdf", size := 9,
        txtRead := none, docxParse := Except.error "e",
        pdfLoad := Except.ok [["some", "text"]] } none
      = Except.error
          "Failed to extract text: PDF processing requires LLM settings for text cleaning" :=
  claim_C1_amended (fun _ => FetchOutcome.networkError "down") 0
    { name := "b.pdf", type := "application/pdf", size := 9,
      txtRead := none, docxParse := Except.error "e",
      pdfLoad := Except.ok [["some", "text"]] }
    (by decide) (by decide) (by decide) (by decide) (by decide) (Or.inl rfl)

/-- C2: for a validated file on the PDF dispatch branch whose raw
extraction succeeds with non-blank text, the cleaning step decides the
outcome of `extractText` with settings: when the `processText` call on the
cleaning prompt succeeds with content that is non-empty after trimming, the
trimmed content is returned; when it reports failure, carries no content,
or carries blank content (a thrown cleaning error cannot occur, since the
embedded `processText` is total exactly as the source method catches every
error), the raw extracted text is returned unchanged — `extractText` still
resolves successfully. -/
theorem claim_C2_cleaning_fallback
    (net : Net) (elapsed : Int) (file : File) (s : ConversionSettings) (raw : String)
    (hval : validateFile file DEFAULT_OPTIONS = Except.ok ())
    (ht1 : file.type ≠ "text/plain")
    (he1 : jsEndsWith (jsToLower file.name) ".txt" = false)
    (ht2 : file.type ≠ "application/vnd.openxmlformats-officedocument.wordprocessingml.document")
    (he2 : jsEndsWith (jsToLower file.name) ".docx" = false)
    (h3 : file.type = "application/pdf"
          ∨ jsEndsWith (jsToLower file.name) ".pdf" = true)
    (hraw : extractTextFromPdf file = Except.ok raw)
    (hne : jsTrim raw ≠ "") :
    (∀ c, (processText net elapsed (cleaningPrompt raw) s).1.success = true →
       (processText net elapsed (cleaningPrompt raw) s).1.content = some c →
       jsTrim c ≠ "" →
       extractText net elapsed file (some s) = Except.ok (jsTrim c))
    ∧ (((processText net elapsed (cleaningPrompt raw) s).1.success = false
        ∨ (processText net elapsed (cleaningPrompt raw) s).1.content = none
        ∨ jsTrim (((processText net elapsed (cleaningPrompt raw) s).1.content).getD "")
            = "") →
       extractText net elapsed file (some s) = Except.ok raw) := by
  have hlen : ¬(raw = "" ∨ (jsTrim raw).length = 0) := by
    rintro (rfl | hl)
    · exact hne (by decide)
    · apply hne
      cases hjt : jsTrim raw with
      | mk l =>
        rw [hjt] at hl
        have hnil : l = [] := List.length_eq_zero.mp (by simpa [String.length] using hl)
        rw [hnil]
  constructor
  · intro c hs hc hct
    have hclean : cleanTextWithLLM net elapsed raw s = Except.ok (jsTrim c) := by
      simp [cleanTextWithLLM, hlen, hc, hs, hct]
    rcases h3 with h | h <;>
      simp [extractText, hval, ht1, ht2, he1, he2, h, hraw, hclean]
  · intro hfb
    have hclean : cleanTextWithLLM net elapsed raw s = Except.ok raw := by
      rcases hfb with hf | hf | hf
      · cases hcont : (processText net elapsed (cleaningPrompt raw) s).1.content <;>
          simp [cleanTextWithLLM, hlen, hf, hcont]
      · simp [cleanTextWithLLM, hlen, hf]
      · cases hcont : (processText net elapsed (cleaningPrompt raw) s).1.content with
        | none => simp [cleanTextWithLLM, hlen, hcont]
        | some c =>
          rw [hcont] at hf
          simp only [Option.getD_some] at hf
          simp [cleanTextWithLLM, hlen, hcont, hf]
    rcases h3 with h | h <;>
      simp [extractText, hval, ht1, ht2, he1, he2, h, hraw, hclean]

/-- C2 witness: a concrete two-fragment PDF, once against a network that
fails (raw text survives unchanged) and once against a network returning
cleaned content with padding (the trimmed content is returned). -/
theorem claim_C2_cleaning_fallback_witness :
    extractText (fun _ => FetchOutcome.networkError "down") 0
      { name := "b.pdf", type := "application/pdf", size := 4,
        txtRead := none, docxParse := Except.error "e",
        pdfLoad := Except.ok [["raw", "text"]] }
      (some { provider := "openai", model := "gpt-4", apiKey := "k",
              temperature := 0, maxTokens := 4000, useExamples := false,
              selectedExamples := [], customPrompt := "",
              customBaseUrl := none, customModel := none })
      = Except.ok "raw text"
    ∧ extractText
        (fun _ => FetchOutcome.response
          { ok := true, status := 200, statusText := "", errorMessage := none,
            bodyText := "", choicesContent := " cleaned ", anthropicContent := "",
            usageTotalTokens := some 150, usageInputTokens := none,
            usageOutputTokens := none }) 0
        { name := "b.pdf", type := "application/pdf", size := 4,
          txtRead := none, docxParse := Except.error "e",
          pdfLoad := Except.ok [["raw", "text"]] }
        (some { provider := "openai", model := "gpt-4", apiKey := "k",
                temperature := 0, maxTokens := 4000, useExamples := false,
                selectedExamples := [], customPrompt := "",
                customBaseUrl := none, customModel := none })
        = Except.ok "cleaned" :=
  ⟨(claim_C2_cleaning_fallback (fun _ => FetchOutcome.networkError "down") 0
      { name := "b.pdf", type := "application/pdf", size := 4,
        txtRead := none, docxParse := Except.error "e",
        pdfLoad := Except.ok [["raw", "text"]] }
      { provider := "openai", model := "gpt-4", apiKey := "k",
        temperature := 0, maxTokens := 4000, useExamples := false,
        selectedExamples := [], customPrompt := "",
        customBaseUrl := none, customModel := none } "raw text"
      (by decide) (by decide) (by decide) (by decide) (by decide)
      (Or.inl rfl) (by decide) (by decide)).2 (Or.inl (by decide)),
   (claim_C2_cleaning_fallback
      (fun _ => FetchOutcome.response
        { ok := true, status := 200, statusText := "", errorMessage := none,
          bodyText := "", choicesContent := " cleaned ", anthropicContent := "",
          usageTotalTokens := some 150, usageInputTokens := none,
          usageOutputTokens := none }) 0
      { name := "b.pdf", type := "application/pdf", size := 4,
        txtRead := none, docxParse := Except.error "e",
        pdfLoad := Except.ok [["raw", "text"]] }
      { provider := "openai", model := "gpt-4", apiKey := "k",
        temperature := 0, maxTokens := 4000, useExamples := false,
        selectedExamples := [], customPrompt := "",
        customBaseUrl := none, customModel := none } "raw text"
      (by decide) (by decide) (by decide) (by decide) (by decide)
      (Or.inl rfl) (by decide) (by decide)).1 " cleaned "
     (by decide) (by decide) (by decide)⟩

/-- C6: a custom instruction that is non-empty after trimming makes the
outbound conversion prompt exactly the trimmed instruction, the fixed
separator line, the document text and the fixed closing instruction — a
concatenation in which no part of the default ten-point template occurs —
and the prompt is independent of the supplied example list. -/
theorem claim_C6_custom_prompt (text : String) (examples : List ConversionExample)
    (cp : String) (h : jsTrim cp ≠ "") :
    buildPrompt text examples cp
      = jsTrim cp ++ "\n\nNow convert this legal pleading:\n\n" ++ text
          ++ "\n\nProvide only the clean markdown conversion:"
    ∧ ∀ examples2 : List ConversionExample,
        buildPrompt text examples cp = buildPrompt text examples2 cp := by
  constructor
  · simp [buildPrompt, h]
  · intro examples2
    simp [buildPrompt, h]

/-- C6 witness: the custom-prompt shape at a concrete instruction, document
and non-empty example list. -/
theorem claim_C6_custom_prompt_witness :
    buildPrompt "DOC"
      [{ id := "1", name := "n", originalText := "o",
         convertedMarkdown := "m", pleadingType := "t" }]
      " custom instruction "
      = "custom instruction\n\nNow convert this legal pleading:\n\nDOC\n\nProvide only the clean markdown conversion:" := by
  rw [(claim_C6_custom_prompt "DOC"
    [{ id := "1", name := "n", originalText := "o",
       convertedMarkdown := "m", pleadingType := "t" }]
    " custom instruction " (by decide)).1]
  decide

/-- C4: with provider "openai", a non-empty key and non-blank text, a 200
response whose body carries `choices[0].message.content = "# X"` makes
`convertToMarkdown` succeed with markdown "# X"; `usage.total_tokens = 150`
surfaces as `tokensUsed = 150`, and an absent usage object as
`tokensUsed = 0`. -/
theorem claim_C4_openai_success
    (net : Net) (elapsed : Int) (text : String) (s : ConversionSettings)
    (examples : List ConversionExample) (r : HttpResponse)
    (hp : s.provider = "openai") (hk : s.apiKey ≠ "")
    (ht : ¬(text = "" ∨ (jsTrim text).length = 0))
    (hr : ∀ req, net req = FetchOutcome.response r)
    (hok : r.ok = true) (hc : r.choicesContent = "# X") :
    (r.usageTotalTokens = some 150 →
      (convertToMarkdown net elapsed text s examples).1
        = { success := true, markdown := some "# X", error := none,
            tokensUsed := some 150, processingTime := elapsed })
    ∧ (r.usageTotalTokens = none →
      (convertToMarkdown net elapsed text s examples).1
        = { success := true, markdown := some "# X", error := none,
            tokensUsed := some 0, processingTime := elapsed }) := by
  have hfind : LLM_PROVIDERS.find? (fun q => q.id == "openai")
      = some { id := "openai", name := "OpenAI",
               baseUrl := "https://api.openai.com/v1", requiresApiKey := true,
               models := ["gpt-4o", "gpt-4o-mini", "gpt-4-turbo", "gpt-3.5-turbo"] } := by
    rfl
  constructor <;> intro hu <;>
    simp [convertToMarkdown, ht, hfind, dispatchProvider, hp, callOpenAI, hk,
      hr, hok, hc, hu]

/-- C4 witness: a concrete 200 response with and without the usage
object. -/
theorem claim_C4_openai_success_witness :
    (convertToMarkdown
        (fun _ => FetchOutcome.response
          { ok := true, status := 200, statusText := "OK", errorMessage := none,
            bodyText := "", choicesContent := "# X", anthropicContent := "",
            usageTotalTokens := some 150, usageInputTokens := none,
            usageOutputTokens := none }) 7 "test text"
        { provider := "openai", model := "gpt-4", apiKey := "k",
          temperature := 0, maxTokens := 4000, useExamples := false,
          selectedExamples := [], customPrompt := "",
          customBaseUrl := none, customModel := none } []).1
      = { success := true, markdown := some "# X", error := none,
          tokensUsed := some 150, processingTime := 7 }
    ∧ (convertToMarkdown
        (fun _ => FetchOutcome.response
          { ok := true, status := 200, statusText := "OK", errorMessage := none,
            bodyText := "", choicesContent := "# X", anthropicContent := "",
            usageTotalTokens := none, usageInputTokens := none,
            usageOutputTokens := none }) 7 "test text"
        { provider := "openai", model := "gpt-4", apiKey := "k",
          temperature := 0, maxTokens := 4000, useExamples := false,
          selectedExamples := [], customPrompt := "",
          customBaseUrl := none, customModel := none } []).1
      = { success := true, markdown := some "# X", error := none,
          tokensUsed := some 0, processingTime := 7 } :=
  ⟨(claim_C4_openai_success _ 7 "test text" _ []
      { ok := true, status := 200, statusText := "OK", errorMessage := none,
        bodyText := "", choicesContent := "# X", anthropicContent := "",
        usageTotalTokens := some 150, usageInputTokens := none,
        usageOutputTokens := none }
      rfl (by decide) (by decide) (fun _ => rfl) rfl rfl).1 rfl,
   (claim_C4_openai_success _ 7 "test text" _ []
      { ok := true, status := 200, statusText := "OK", errorMessage := none,
        bodyText := "", choicesContent := "# X", anthropicContent := "",
        usageTotalTokens := none, usageInputTokens := none,
        usageOutputTokens := none }
      rfl (by decide) (by decide) (fun _ => rfl) rfl rfl).2 rfl⟩

/-- C5: blank input short-circuits both orchestrators with the exact
zero-time failure result and an empty request list (no network traffic);
every other failure — unknown provider shown explicitly, plus any failure
of the dispatched call such as a missing key or a transport error — is
returned as a structured result whose `error` field is populated, never
thrown (the embedded functions are total, as the source methods catch every
error). -/
theorem claim_C5_failure_results :
    (∀ (net : Net) (elapsed : Int) (text : String) (s : ConversionSettings)
       (examples : List ConversionExample),
       (text = "" ∨ (jsTrim text).length = 0) →
       convertToMarkdown net elapsed text s examples
         = ({ success := false, markdown := none,
              error := some "No text content provided for conversion",
              tokensUsed := none, processingTime := 0 }, []))
    ∧ (∀ (net : Net) (elapsed : Int) (prompt : String) (s : ConversionSettings),
       (prompt = "" ∨ (jsTrim prompt).length = 0) →
       processText net elapsed prompt s
         = ({ success := false, content := none,
              error := some "No prompt provided for text processing",
              tokensUsed := none, processingTime := 0 }, []))
    ∧ (∀ (net : Net) (elapsed : Int) (text : String) (s : ConversionSettings)
         (examples : List ConversionExample),
       (convertToMarkdown net elapsed text s examples).1.success = false →
       ∃ m, (convertToMarkdown net elapsed text s examples).1.error = some m)
    ∧ (∀ (net : Net) (elapsed : Int) (prompt : String) (s : ConversionSettings),
       (processText net elapsed prompt s).1.success = false →
       ∃ m, (processText net elapsed prompt s).1.error = some m)
    ∧ (∀ (net : Net) (elapsed : Int) (text : String) (s : ConversionSettings)
         (examples : List ConversionExample),
       ¬(text = "" ∨ (jsTrim text).length = 0) →
       LLM_PROVIDERS.find? (fun q => q.id == s.provider) = none →
       (convertToMarkdown net elapsed text s examples).1
         = { success := false, markdown := none,
             error := some ("Invalid LLM provider: " ++ s.provider),
             tokensUsed := none, processingTime := elapsed }) := by
  refine ⟨?_, ?_, ?_, ?_, ?_⟩
  · intro net elapsed text s examples h
    simp [convertToMarkdown, h]
  · intro net elapsed prompt s h
    simp [processText, h]
  · intro net elapsed text s examples
    by_cases hblank : (text = "" ∨ (jsTrim text).length = 0)
    · intro _
      exact ⟨"No text content provided for conversion",
        by simp [convertToMarkdown, hblank]⟩
    · cases hfind : LLM_PROVIDERS.find? (fun q => q.id == s.provider) with
      | none =>
        intro _
        exact ⟨"Invalid LLM provider: " ++ s.provider,
          by simp [convertToMarkdown, hblank, hfind]⟩
      | some P =>
        cases hd : dispatchProvider net (buildPrompt text examples s.customPrompt) s P with
        | mk res reqs =>
          cases res with
          | ok r =>
            intro hs
            simp [convertToMarkdown, hblank, hfind, hd] at hs
          | error m =>
            intro _
            exact ⟨m, by simp [convertToMarkdown, hblank, hfind, hd]⟩
  · intro net elapsed prompt s
    by_cases hblank : (prompt = "" ∨ (jsTrim prompt).length = 0)
    · intro _
      exact ⟨"No prompt provided for text processing",
        by simp [processText, hblank]⟩
    · cases hfind : LLM_PROVIDERS.find? (fun q => q.id == s.provider) with
      | none =>
        intro _
        exact ⟨"Invalid LLM provider: " ++ s.provider,
          by simp [processText, hblank, hfind]⟩
      | some P =>
        cases hd : dispatchProvider net prompt s P with
        | mk res reqs =>
          cases res with
          | ok r =>
            intro hs
            simp [processText, hblank, hfind, hd] at hs
          | error m =>
            intro _
            exact ⟨m, by simp [processText, hblank, hfind, hd]⟩
  · intro net elapsed text s examples hblank hfind
    simp [convertToMarkdown, hblank, hfind]

/-- C5 witness: whitespace-only inputs short-circuit both entry points with
the zero-time result and no requests, and a transport failure surfaces as a
populated structured error. -/
theorem claim_C5_failure_results_witness :
    convertToMarkdown (fun _ => FetchOutcome.networkError "boom") 9 "  "
      { provider := "openai", model := "gpt-4", apiKey := "k",
        temperature := 0, maxTokens := 4000, useExamples := false,
        selectedExamples := [], customPrompt := "",
        customBaseUrl := none, customModel := none } []
      = ({ success := false, markdown := none,
           error := some "No text content provided for conversion",
           tokensUsed := none, processingTime := 0 }, [])
    ∧ processText (fun _ => FetchOutcome.networkError "boom") 9 " "
        { provider := "openai", model := "gpt-4", apiKey := "k",
          temperature := 0, maxTokens := 4000, useExamples := false,
          selectedExamples := [], customPrompt := "",
          customBaseUrl := none, customModel := none }
        = ({ success := false, content := none,
             error := some "No prompt provided for text processing",
             tokensUsed := none, processingTime := 0 }, [])
    ∧ (∃ m, (convertToMarkdown (fun _ => FetchOutcome.networkError "boom") 9 "t"
          { provider := "openai", model := "gpt-4", apiKey := "k",
            temperature := 0, maxTokens := 4000, useExamples := false,
            selectedExamples := [], customPrompt := "",
            customBaseUrl := none, customModel := none } []).1.error = some m) :=
  ⟨claim_C5_failure_results.1 _ 9 "  " _ [] (Or.inr (by decide)),
   claim_C5_failure_results.2.1 _ 9 " " _ (Or.inr (by decide)),
   claim_C5_failure_results.2.2.1 _ 9 "t" _ [] (by decide)⟩

/-- C7: the local/custom branch posts to
`<customBaseUrl or provider baseUrl>/chat/completions` with the JSON model
field `customModel or "custom"` and only the Content-Type header (no
authorization header), and when neither base URL is non-empty it fails with
"Custom base URL is required for local LLM" without issuing a request. -/
theorem claim_C7_custom_request (net : Net) (prompt : String)
    (s : ConversionSettings) (p : LLMProvider) :
    (jsOr s.customBaseUrl p.baseUrl ≠ "" →
      (callCustomAPI net prompt s p).2
        = [{ url := jsOr s.customBaseUrl p.baseUrl ++ "/chat/completions",
             method := "POST",
             headers := [("Content-Type", "application/json")],
             body := { model := jsOr s.customModel "custom",
                       messages := [{ role := "user", content := prompt }],
                       temperature := s.temperature,
                       maxTokens := s.maxTokens } }]
      ∧ ∀ req ∈ (callCustomAPI net prompt s p).2,
          req.headers.map Prod.fst = ["Content-Type"])
    ∧ (jsOr s.customBaseUrl p.baseUrl = "" →
       callCustomAPI net prompt s p
         = (Except.error "Custom base URL is required for local LLM", [])) := by
  constructor
  · intro h
    have h2 : (callCustomAPI net prompt s p).2
        = [{ url := jsOr s.customBaseUrl p.baseUrl ++ "/chat/completions",
             method := "POST",
             headers := [("Content-Type", "application/json")],
             body := { model := jsOr s.customModel "custom",
                       messages := [{ role := "user", content := prompt }],
                       temperature := s.temperature,
                       maxTokens := s.maxTokens } }] := by
      simp only [callCustomAPI]
      rw [if_neg h]
      split
      · rfl
      · split <;> rfl
    refine ⟨h2, ?_⟩
    intro req hreq
    rw [h2] at hreq
    simp only [List.mem_singleton] at hreq
    subst hreq
    rfl
  · intro h
    simp [callCustomAPI, h]

/-- C7 witness: a concrete local/custom call with a custom base URL and
model (request shape and headers), and one with no resolvable base URL
(the up-front failure). -/
theorem claim_C7_custom_request_witness :
    (callCustomAPI (fun _ => FetchOutcome.networkError "down") "p"
        { provider := "local", model := "m", apiKey := "",
          temperature := 0, maxTokens := 64, useExamples := false,
          selectedExamples := [], customPrompt := "",
          customBaseUrl := some "http://box:1234/v1", customModel := some "llama" }
        { id := "local", name := "Local/Custom API",
          baseUrl := "http://localhost:11434/v1", requiresApiKey := false,
          models := ["custom"] }).2
      = [{ url := "http://box:1234/v1" ++ "/chat/completions",
           method := "POST",
           headers := [("Content-Type", "application/json")],
           body := { model := "llama",
                     messages := [{ role := "user", content := "p" }],
                     temperature := 0, maxTokens := 64 } }]
    ∧ callCustomAPI (fun _ => FetchOutcome.networkError "down") "p"
        { provider := "local", model := "m", apiKey := "",
          temperature := 0, maxTokens := 64, useExamples := false,
          selectedExamples := [], customPrompt := "",
          customBaseUrl := none, customModel := none }
        { id := "local", name := "Local/Custom API", baseUrl := "",
          requiresApiKey := false, models := ["custom"] }
      = (Except.error "Custom base URL is required for local LLM", []) :=
  ⟨((claim_C7_custom_request (fun _ => FetchOutcome.networkError "down") "p"
      { provider := "local", model := "m", apiKey := "",
        temperature := 0, maxTokens := 64, useExamples := false,
        selectedExamples := [], customPrompt := "",
        customBaseUrl := some "http://box:1234/v1", customModel := some "llama" }
      { id := "local", name := "Local/Custom API",
        baseUrl := "http://localhost:11434/v1", requiresApiKey := false,
        models := ["custom"] }).1 (by decide)).1,
   (claim_C7_custom_request (fun _ => FetchOutcome.networkError "down") "p"
      { provider := "local", model := "m", apiKey := "",
        temperature := 0, maxTokens := 64, useExamples := false,
        selectedExamples := [], customPrompt := "",
        customBaseUrl := none, customModel := none }
      { id := "local", name := "Local/Custom API", baseUrl := "",
        requiresApiKey := false, models := ["custom"] }).2 rfl⟩

/-- C10: every provider descriptor in the static registry carries a
non-empty base URL, so for settings whose provider identifier resolves in
the registry the custom branch always has a non-empty resolved base URL, a
request is always issued, and the guard returning "Custom base URL is
required for local LLM" with no request is unreachable. -/
theorem claim_C10_base_url_total :
    (∀ p ∈ LLM_PROVIDERS, p.baseUrl ≠ "")
    ∧ (∀ (s : ConversionSettings) (p : LLMProvider),
        LLM_PROVIDERS.find? (fun q => q.id == s.provider) = some p →
        jsOr s.customBaseUrl p.baseUrl ≠ ""
        ∧ ∀ (net : Net) (prompt : String),
            (callCustomAPI net prompt s p).2 ≠ []
            ∧ callCustomAPI net prompt s p
                ≠ (Except.error "Custom base URL is required for local LLM", [])) := by
  have hall : ∀ p ∈ LLM_PROVIDERS, p.baseUrl ≠ "" := by decide
  refine ⟨hall, fun s p hfind => ?_⟩
  have hmem : p ∈ LLM_PROVIDERS := List.mem_of_find?_eq_some hfind
  have hbu : p.baseUrl ≠ "" := hall p hmem
  have hjs : jsOr s.customBaseUrl p.baseUrl ≠ "" := by
    unfold jsOr
    cases s.customBaseUrl with
    | none => exact hbu
    | some str =>
      by_cases hstr : str = ""
      · simpa [hstr] using hbu
      · simp [hstr]
  refine ⟨hjs, fun net prompt => ?_⟩
  have h2 : (callCustomAPI net prompt s p).2 ≠ [] := by
    simp only [callCustomAPI]
    rw [if_neg hjs]
    split
    · simp
    · split <;> simp
  exact ⟨h2, fun he => h2 (by rw [he])⟩

/-- C10 witness: the resolved "local" provider and settings with no custom
base URL still issue a request. -/
theorem claim_C10_base_url_total_witness :
    jsOr (none : Option String) "http://localhost:11434/v1" ≠ ""
    ∧ (callCustomAPI (fun _ => FetchOutcome.networkError "down") "p"
        { provider := "local", model := "m", apiKey := "",
          temperature := 0, maxTokens := 64, useExamples := false,
          selectedExamples := [], customPrompt := "",
          customBaseUrl := none, customModel := none }
        { id := "local", name := "Local/Custom API",
          baseUrl := "http://localhost:11434/v1", requiresApiKey := false,
          models := ["custom"] }).2 ≠ [] :=
  ⟨(claim_C10_base_url_total.2
      { provider := "local", model := "m", apiKey := "",
        temperature := 0, maxTokens := 64, useExamples := false,
        selectedExamples := [], customPrompt := "",
        customBaseUrl := none, customModel := none }
      { id := "local", name := "Local/Custom API",
        baseUrl := "http://localhost:11434/v1", requiresApiKey := false,
        models := ["custom"] } rfl).1,
   ((claim_C10_base_url_total.2
      { provider := "local", model := "m", apiKey := "",
        temperature := 0, maxTokens := 64, useExamples := false,
        selectedExamples := [], customPrompt := "",
        customBaseUrl := none, customModel := none }
      { id := "local", name := "Local/Custom API",
        baseUrl := "http://localhost:11434/v1", requiresApiKey := false,
        models := ["custom"] } rfl).2 _ "p").1⟩

end Pleading
